import Mathlib

/-!
Verification of the slack-voice-conveter repository.

The definitions below are a shallow embedding of the TypeScript sources:
Code.ts (dispatcher, dedup cache use, credential provider, posting,
deletion) and the handler/service modules (event handler, transcription
handler with its bounded retry loop, Slack client wrappers).  External
services (the key/value cache backend, Slack HTTP endpoints, the script
trigger service) are modelled by explicit state or by parameters carrying
the result the service returned; JavaScript truthiness on strings and
optional values is modelled explicitly.
-/

namespace SlackVoice

/-- JavaScript truthiness of a possibly-undefined string value:
truthy exactly when it is present and non-empty. -/
def optTruthy (o : Option String) : Bool :=
  match o with
  | some s => s ≠ ""
  | none => false

/-- JavaScript expression a OR b where a is a plain string and b a
possibly-undefined string: returns b when a is falsy (empty). -/
def jsOrRaw (s : String) (o : Option String) : Option String :=
  if s = "" then o else some s

/-- JavaScript expression a OR b OR the empty string, used by
createEventKey: first truthy operand, else the empty string. -/
def jsOrS (s : String) (o : Option String) : String :=
  if s = "" then (o.getD "") else s

/-- Rendering of a possibly-undefined string inside a template literal:
an undefined value prints as the text undefined. -/
def tmplRender (o : Option String) : String := o.getD "undefined"

/-- Whitespace characters removed by the JavaScript trim used on
transcripts (ASCII whitespace; sufficient for this model). -/
def isWsChar (c : Char) : Bool :=
  c = ' ' || c = '\t' || c = '\n' || c = '\r'

/-- JavaScript String.prototype.trim: strip leading and trailing
whitespace. -/
def jsTrim (s : String) : String :=
  ⟨((s.data.dropWhile isWsChar).reverse.dropWhile isWsChar).reverse⟩

/-- ASCII lower-casing of one character. -/
def charLower (c : Char) : Char :=
  if 65 ≤ c.toNat ∧ c.toNat ≤ 90 then Char.ofNat (c.toNat + 32) else c

/-- ASCII lower-casing of a string (models the i flag of the filetype
regular expression). -/
def lowerStr (s : String) : String := ⟨s.data.map charLower⟩

/-- Whether the first character list is an initial segment of the
second. -/
def listStarts : List Char → List Char → Bool
  | [], _ => true
  | _ :: _, [] => false
  | a :: as, b :: bs => a = b && listStarts as bs

/-! ## Data model (from the declared interfaces in the typings file) -/

/-- A transcription preview: content text plus the has_more flag. -/
structure TranscriptionPreview where
  content : String
  has_more : Bool
deriving DecidableEq

/-- The optional full transcription text. -/
structure TranscriptionFull where
  content : String
deriving DecidableEq

/-- Slack-side transcription metadata attached to a file. -/
structure Transcription where
  status : String
  preview : Option TranscriptionPreview
  full : Option TranscriptionFull
deriving DecidableEq

/-- Slack file metadata as used by the pipeline. -/
structure SlackFile where
  id : String
  filetype : Option String
  mimetype : Option String
  url_private : Option String
  url_private_download : Option String
  transcription : Option Transcription
deriving DecidableEq

/-- A Slack event object (fields the sources read; channel, ts and user
are declared as required strings in the typings, the rest optional). -/
structure SlackEvent where
  type : String
  subtype : Option String
  files : Option (List SlackFile)
  file : Option SlackFile
  file_id : Option String
  channel : String
  channel_id : Option String
  ts : String
  event_ts : Option String
  user : String
  user_id : Option String
deriving DecidableEq

/-- A parsed webhook body: top-level type, challenge, optional event. -/
structure SlackData where
  type : String
  challenge : String
  event : Option SlackEvent
deriving DecidableEq

/-- Slack API response envelope for files.info and friends. -/
structure SlackApiResponse where
  ok : Bool
  error : Option String
  file : Option SlackFile
deriving DecidableEq

/-! ## Dedup cache

The script cache backend (CacheService) is a TTL key/value store.  We
model it as an association list from key to expiry instant; put replaces
any previous entry for the key and get only sees unexpired entries. -/

/-- Cache state: list of (key, expiry time) pairs. -/
abbrev Cache := List (String × Nat)

/-- Cache lookup at the given instant: the stored sentinel if a
non-expired entry for the key exists. -/
def cacheGet (c : Cache) (now : Nat) (k : String) : Option String :=
  match c.find? (fun e => e.1 = k) with
  | some e => if now < e.2 then some "processed" else none
  | none => none

/-- Cache insert-or-refresh with a ttl in seconds. -/
def cachePut (c : Cache) (now ttl : Nat) (k : String) : Cache :=
  (k, now + ttl) :: c.filter (fun e => e.1 ≠ k)

/-- isDuplicateEvent from Code.ts: an empty key is never a duplicate;
otherwise check the prefixed cache key and, when absent, mark it as
processed for 30 seconds.  Returns the answer and the new cache state. -/
def isDuplicateEvent (cache : Cache) (now : Nat) (eventKey : String) :
    Bool × Cache :=
  if eventKey = "" then (false, cache)
  else
    let cacheKey := "processed_event_" ++ eventKey
    match cacheGet cache now cacheKey with
    | some _ => (true, cache)
    | none => (false, cachePut cache now 30 cacheKey)

/-! ## Event key and audio-type classification -/

/-- createEventKey from Code.ts: composite of file id, channel id, user
id and timestamp, with per-event-type file-id extraction and JavaScript
OR fallbacks. -/
def createEventKey (event : SlackEvent) : String :=
  let fileId :=
    if event.type = "file_shared" then
      (if optTruthy event.file_id then event.file_id.getD ""
       else (event.file.map (fun f => f.id)).getD "")
    else if event.type = "message" ∧ event.subtype = some "file_share" then
      match event.files with
      | some (f :: _) => f.id
      | _ => ""
    else ""
  let channelId := jsOrS event.channel event.channel_id
  let userId := jsOrS event.user event.user_id
  let timestamp := jsOrS event.ts event.event_ts
  fileId ++ "_" ++ channelId ++ "_" ++ userId ++ "_" ++ timestamp

/-- The filetype filter of the Code.ts dispatcher: a case-insensitive
full match against m4a, mp3, mp4, wav or mpeg; an undefined filetype
never matches. -/
def audioFiletypeTest (ft : Option String) : Bool :=
  match ft with
  | some s => lowerStr s ∈ ["m4a", "mp3", "mp4", "wav", "mpeg"]
  | none => false

/-- The mimetype filter of the pipeline: truthy mimetype matching the
pattern audio-slash at the start, video-slash at the start, or an mp4
suffix anywhere. -/
def mimetypeAudioTest (m : Option String) : Bool :=
  match m with
  | some s => listStarts "audio/".data s.data || listStarts "video/".data s.data
      || listStarts "mp4".data.reverse s.data.reverse
  | none => false

/-- True when the file carries a transcription whose status is
complete (the JavaScript guard file.transcription AND status equal
complete). -/
def transcriptionComplete (file : SlackFile) : Bool :=
  match file.transcription with
  | some tr => tr.status = "complete"
  | none => false

/-! ## The Code.ts dispatcher -/

/-- Result of one dispatcher invocation: the text response, the cache
state afterwards, and the list of events handed to the voice-memo
pipeline (processVoiceMemo calls). -/
structure DoPostResult where
  response : String
  cache : Cache
  pipelineCalls : List SlackEvent
deriving DecidableEq

/-- doPost from Code.ts.  The input is the parse result of the request
body (none models a JSON.parse failure, which the surrounding try/catch
absorbs).  All side effects other than the cache write and the pipeline
call are log lines, which are not modelled. -/
def doPost (parsed : Option SlackData) (cache : Cache) (now : Nat) :
    DoPostResult :=
  match parsed with
  | none => ⟨"Event received", cache, []⟩
  | some data =>
    if data.type = "url_verification" then
      ⟨data.challenge, cache, []⟩
    else
      match data.event with
      | none => ⟨"No event data", cache, []⟩
      | some event =>
        let eventKey := createEventKey event
        let dup := isDuplicateEvent cache now eventKey
        if dup.1 then ⟨"Duplicate event", dup.2, []⟩
        else if event.type = "file_shared" then
          ⟨"File shared event received", dup.2, []⟩
        else if event.type = "message" ∧ event.subtype = some "file_share" then
          match event.files with
          | some (fileInfo :: _) =>
            if ¬ audioFiletypeTest fileInfo.filetype then
              ⟨"Not an audio file", dup.2, []⟩
            else
              ⟨"Event received", dup.2, [event]⟩
          | _ => ⟨"No file information", dup.2, []⟩
        else
          ⟨"Event received", dup.2, []⟩

/-! ## The part_002 dispatcher variant (doPost with the unguarded parse) -/

/-- isDuplicateFileEvent from the part_002 draft: keyed on file id,
channel id and user id with a 300 second ttl and a processed_file
prefix; non-file events and events without a truthy channel or file id
are never duplicates and leave the cache untouched. -/
def isDuplicateFileEvent (data : SlackData) (cache : Cache) (now : Nat) :
    Bool × Cache :=
  match data.event with
  | none => (false, cache)
  | some event =>
    if ¬ (event.type = "file_shared" ∨
          (event.type = "message" ∧ event.subtype = some "file_share")) then
      (false, cache)
    else
      let channelId := jsOrRaw event.channel event.channel_id
      let userId := jsOrRaw event.user event.user_id
      let fileId : Option String :=
        if optTruthy event.file_id then event.file_id
        else match event.files with
          | some (f :: _) => some f.id
          | _ => none
      if ¬ optTruthy channelId ∨ ¬ optTruthy fileId then (false, cache)
      else
        let eventKey := tmplRender fileId ++ "_" ++ tmplRender channelId
          ++ "_" ++ tmplRender userId
        let cacheKey := "processed_file_" ++ eventKey
        match cacheGet cache now cacheKey with
        | some _ => (true, cache)
        | none => (false, cachePut cache now 300 cacheKey)

/-- doPost from the part_002 draft.  JSON.parse runs before the
try/catch, so a malformed body (modelled as none) propagates the parse
exception to the caller, modelled as the error branch of Except.
Everything after a successful parse returns a text response. -/
def doPostV2 (parsed : Option SlackData) (cache : Cache) (now : Nat) :
    Except String DoPostResult :=
  match parsed with
  | none => .error "SyntaxError: Unexpected token in JSON"
  | some data =>
    if data.type = "url_verification" then .ok ⟨data.challenge, cache, []⟩
    else
      match data.event with
      | none => .ok ⟨"Not a message event", cache, []⟩
      | some event =>
        if event.type ≠ "message" then .ok ⟨"Not a message event", cache, []⟩
        else if event.subtype ≠ some "file_share" then
          .ok ⟨"Not a file share event", cache, []⟩
        else
          let dup := isDuplicateFileEvent data cache now
          if dup.1 then .ok ⟨"Duplicate event", dup.2, []⟩
          else .ok ⟨"Event received", dup.2, [event]⟩

/-! ## Transcription handler: bounded retry state machine -/

/-- The record persisted in script properties between delayed
rechecks. -/
structure PendingTranscription where
  fileId : String
  channelId : String
  timestamp : String
  retryCount : Nat
  maxRetries : Nat
deriving DecidableEq

/-- Result of schedulePendingTranscription: the persisted record and
the number of time-based triggers created by the call. -/
structure ScheduleResult where
  pending : PendingTranscription
  triggersCreated : Nat
deriving DecidableEq

/-- schedulePendingTranscription: creates one 10-second trigger and
persists the record with retryCount 0 and maxRetries 6. -/
def schedulePendingTranscription (fileId channelId timestamp : String) :
    ScheduleResult :=
  { pending :=
      { fileId := fileId
        channelId := channelId
        timestamp := timestamp
        retryCount := 0
        maxRetries := 6 }
    triggersCreated := 1 }

/-- The branch retryTranscriptionCheck takes on one invocation. -/
inductive RetryOutcome where
  /-- No persisted record was found: log and return. -/
  | noPending
  /-- The file-info refetch failed: clean up and return. -/
  | fetchFailed
  /-- Transcription finished: run processTranscription and clean up. -/
  | completed (file : SlackFile)
  /-- Retry budget exhausted: run processTranscription on the current
  best-available state and clean up. -/
  | exhausted (file : SlackFile)
  /-- Still processing with budget left: persist the incremented record
  and create one further trigger. -/
  | rescheduled (next : PendingTranscription)
deriving DecidableEq

/-- Number of new time-based triggers the outcome creates (one in the
reschedule branch of the source, none elsewhere). -/
def RetryOutcome.newTriggers : RetryOutcome → Nat
  | .rescheduled _ => 1
  | _ => 0

/-- retryTranscriptionCheck: reads the persisted record, refetches the
file, and either processes (complete or budget exhausted) or persists
the record with retryCount incremented and schedules one more
recheck. -/
def retryTranscriptionCheck (stored : Option PendingTranscription)
    (fileInfo : Option SlackApiResponse) : RetryOutcome :=
  match stored with
  | none => .noPending
  | some pd =>
    match fileInfo with
    | none => .fetchFailed
    | some resp =>
      match resp.file with
      | none => .fetchFailed
      | some file =>
        if transcriptionComplete file then .completed file
        else if pd.retryCount ≥ pd.maxRetries then .exhausted file
        else .rescheduled { pd with retryCount := pd.retryCount + 1 }

/-! ## Slack client wrappers (part_007) -/

/-- The truthy full transcription content of a files.info response, if
any. -/
def fullContentOf (resp : SlackApiResponse) : Option String :=
  match resp.file with
  | some f =>
    match f.transcription with
    | some tr =>
      match tr.full with
      | some fl => if fl.content = "" then none else some fl.content
      | none => none
    | none => none
  | none => none

/-- The truthy preview transcription content of a files.info response,
if any. -/
def previewContentOf (resp : SlackApiResponse) : Option String :=
  match resp.file with
  | some f =>
    match f.transcription with
    | some tr =>
      match tr.preview with
      | some pv => if pv.content = "" then none else some pv.content
      | none => none
    | none => none
  | none => none

/-- getFullTranscription: issues files.info with get_transcript and, on
a 200 ok response, returns the full transcription content when truthy,
else the preview content when truthy, else null.  The input carries the
HTTP outcome (none models a thrown fetch). -/
def getFullTranscription (response : Option (Nat × SlackApiResponse)) :
    Option String :=
  match response with
  | none => none
  | some (code, resp) =>
    if code ≠ 200 then none
    else if ¬ resp.ok then none
    else
      match fullContentOf resp with
      | some s => some s
      | none => previewContentOf resp

/-- The message text the part_007 postTranscription sends: the trimmed
input, or the fixed emoji sentinel when the trimmed input is empty. -/
def postSentTextV7 (text : String) : String :=
  let t := jsTrim text
  if t = "" then ":speech_balloon::arrow_right: :memo: … :x:" else t

/-- The formatted text computed by the Code.ts postTranscription: the
trimmed input, or the fixed no-content sentinel when it is empty. -/
def formattedTextCode (text : String) : String :=
  let t := jsTrim text
  if t = "" then "文字起こしできる内容がありませんでした。" else t

/-- The fallback message text the Code.ts postTranscription sends: a
fixed header followed by the formatted text. -/
def postSentTextCode (text : String) : String :=
  "📝 ボイスメモの文字起こし: " ++ formattedTextCode text

/-! ## Pipeline effect traces -/

/-- Observable Slack-side effects of one pipeline run, in order. -/
inductive Effect where
  /-- A chat.postMessage call through postTranscription with the given
  raw text argument. -/
  | post (channel text : String)
  /-- A files.delete call; ok records the outcome the API returned. -/
  | deleteFile (fileId : String) (ok : Bool)
  /-- A chat.delete call; ok records the outcome the API returned. -/
  | deleteMessage (channel ts : String) (ok : Bool)
deriving DecidableEq

/-- The transcript the complete branch of processTranscription selects:
the preview content, upgraded to the full fetch result when has_more
and the fetch returned a truthy string, else the preview with the
continuation marker; a missing or empty preview yields the fixed
no-content default. -/
def selectedTranscript (tr : Transcription) (fullFetch : Option String) :
    String :=
  let defaultText := "文字起こしできる内容がありませんでした。"
  match tr.preview with
  | some pv =>
    if pv.content ≠ "" then
      if pv.has_more then
        match fullFetch with
        | some full =>
          if full = "" then pv.content ++ " (続きがあります)" else full
        | none => pv.content ++ " (続きがあります)"
      else pv.content
    else defaultText
  | none => defaultText

/-- processTranscription from the transcription handler: selects the
final transcript from the file's transcription state (full fetch result
given as a parameter, consumed only in the has_more branch), posts it,
and in the complete branch deletes the original file afterwards.
deleteOk records what files.delete returned. -/
def processTranscription (file : SlackFile) (channelId timestamp : String)
    (fullFetch : Option String) (deleteOk : Bool) : List Effect :=
  let _ := timestamp
  match file.transcription with
  | none => [.post channelId "このファイルには文字起こし情報がありません。"]
  | some tr =>
    if tr.status = "complete" then
      [.post channelId (selectedTranscript tr fullFetch),
       .deleteFile file.id deleteOk]
    else if tr.status = "processing" then
      [.post channelId "音声の文字起こしは処理中です。しばらくするとSlack内でファイルのトランスクリプトが利用可能になります。"]
    else if tr.status = "failed" then
      [.post channelId "音声の文字起こしに失敗しました。"]
    else
      [.post channelId "文字起こし状態を確認できませんでした。"]

/-- First step the transcription-handler processVoiceMemo takes. -/
inductive VoiceMemoAction where
  /-- No file id on the event: log and return. -/
  | noFileId
  /-- files.info failed: log and return. -/
  | fetchFailed
  /-- The fetched file is not an audio file: log and return. -/
  | notAudio
  /-- Transcription already complete: run processTranscription now. -/
  | processNow (file : SlackFile) (channelId timestamp : String)
  /-- Not yet complete: schedule the delayed recheck. -/
  | scheduled (s : ScheduleResult)
deriving DecidableEq

/-- The file id a pipeline invocation works on: the id of the first
attached file, or the empty string (a falsy value) when there is
none. -/
def pipelineFileId (event : SlackEvent) : String :=
  match event.files with
  | some (f :: _) => f.id
  | _ => ""

/-- processVoiceMemo from the transcription handler: extracts the first
file id, refetches the file, filters by mimetype, and either processes
immediately (transcription complete) or schedules the pending
transcription. -/
def processVoiceMemoHandler (event : SlackEvent)
    (fileInfoRes : Option SlackApiResponse) : VoiceMemoAction :=
  let fileId := pipelineFileId event
  if fileId = "" then .noFileId
  else
    match fileInfoRes with
    | none => .fetchFailed
    | some resp =>
      match resp.file with
      | none => .fetchFailed
      | some file =>
        if ¬ mimetypeAudioTest file.mimetype then .notAudio
        else if transcriptionComplete file then
          .processNow file event.channel event.ts
        else
          .scheduled (schedulePendingTranscription fileId event.channel event.ts)

/-! ## The Code.ts pipeline (processVoiceMemo with the external speech API) -/

/-- The transcript handleTranscriptionWithoutAudio selects: the Slack
preview content with the continuation marker when truncated, defaulting
to the fixed no-content text. -/
def previewTranscript (file : SlackFile) : String :=
  let defaultText := "文字起こしできる内容がありませんでした。"
  match file.transcription with
  | some tr =>
    if tr.status = "complete" then
      match tr.preview with
      | some pv =>
        if pv.content ≠ "" then
          if pv.has_more then pv.content ++ " (続きがあります)" else pv.content
        else defaultText
      | none => defaultText
    else defaultText
  | none => defaultText

/-- handleTranscriptionWithoutAudio from Code.ts: selects the Slack
preview transcript (with the continuation marker when truncated), posts
it, then deletes the original message. -/
def handleTranscriptionWithoutAudio (file : SlackFile)
    (channelId timestamp : String) (deleteOk : Bool) : List Effect :=
  [.post channelId (previewTranscript file),
   .deleteMessage channelId timestamp deleteOk]

/-- processVoiceMemo from Code.ts: fetch file info, filter by mimetype,
download the audio (falling back to the Slack transcript when the
download fails and that transcript is complete), transcribe through the
external API (its result passed in as transcript), post, then delete
the original message inside a try/catch.  The trace records the calls
made. -/
def processVoiceMemoCode (event : SlackEvent)
    (fileInfoRes : Option SlackApiResponse) (downloadOk : Bool)
    (transcript : String) (deleteOk : Bool) : List Effect :=
  let fileId := pipelineFileId event
  if fileId = "" then []
  else
    match fileInfoRes with
    | none => []
    | some resp =>
      match resp.file with
      | none => []
      | some file =>
        if ¬ mimetypeAudioTest file.mimetype then []
        else
          let downloadUrl := jsOrRaw (file.url_private_download.getD "")
            file.url_private
          if ¬ optTruthy downloadUrl then []
          else if ¬ downloadOk then
            if transcriptionComplete file then
              handleTranscriptionWithoutAudio file event.channel event.ts deleteOk
            else []
          else
            [.post event.channel transcript,
             .deleteMessage event.channel event.ts deleteOk]

/-! ## Credential provider -/

/-- The persisted script properties the credential provider reads
(none models an unset property). -/
structure ScriptProps where
  botToken : Option String
  userToken : Option String
  channelName : Option String
deriving DecidableEq

/-- The configuration object getSlackConfig returns. -/
structure SlackConfig where
  token : String
  userToken : String
  channelName : String
deriving DecidableEq

/-- getSlackConfig from Code.ts: throws the configuration error when
any of the three properties is absent or empty, else returns all
three. -/
def getSlackConfig (p : ScriptProps) : Except String SlackConfig :=
  if ¬ optTruthy p.botToken ∨ ¬ optTruthy p.userToken ∨
      ¬ optTruthy p.channelName then
    .error "Slack設定が見つかりません。setupCredentials()関数を実行して設定を保存してください。"
  else
    .ok
      { token := p.botToken.getD ""
        userToken := p.userToken.getD ""
        channelName := p.channelName.getD "" }

/-! ## Fixtures and relations used by the claim statements -/

/-- A non-actionable event: a channel_join message without a file
share. -/
def channelJoinEvent : SlackEvent :=
  ⟨"message", some "channel_join", none, none, none, "C123", none,
    "111.222", none, "U1", none⟩

/-- The webhook payload wrapping channelJoinEvent. -/
def channelJoinData : SlackData :=
  ⟨"event_callback", "", some channelJoinEvent⟩

/-- Two events that agree on every field and on the first attached
file, and both carry at least one file; the files after the first may
differ arbitrarily. -/
def sameHeadVariant (e1 e2 : SlackEvent) : Prop :=
  e1.type = e2.type ∧ e1.subtype = e2.subtype ∧ e1.file = e2.file ∧
  e1.file_id = e2.file_id ∧ e1.channel = e2.channel ∧
  e1.channel_id = e2.channel_id ∧ e1.ts = e2.ts ∧
  e1.event_ts = e2.event_ts ∧ e1.user = e2.user ∧ e1.user_id = e2.user_id ∧
  ∃ f t1 t2, e1.files = some (f :: t1) ∧ e2.files = some (f :: t2)

/-- A concrete audio file used by the C10 witness. -/
def fileA : SlackFile := ⟨"FA", some "m4a", some "audio/mp4", none, none, none⟩

/-- A second attached file that must never be examined. -/
def fileB : SlackFile := ⟨"FB", some "wav", some "audio/wav", none, none, none⟩

/-- A file-share event carrying two files. -/
def eventTwoFiles : SlackEvent :=
  ⟨"message", some "file_share", some [fileA, fileB], none, none, "C1", none,
    "1.2", none, "U1", none⟩

/-- The same event carrying only the first file. -/
def eventOneFile : SlackEvent :=
  ⟨"message", some "file_share", some [fileA], none, none, "C1", none,
    "1.2", none, "U1", none⟩

/-! ## Shared helper lemmas -/

/-- A string append with a non-empty left part is non-empty. -/
theorem append_ne_empty_left (a b : String) (ha : a ≠ "") : a ++ b ≠ "" := by
  intro h
  apply ha
  have hd := congrArg String.data h
  rw [String.data_append] at hd
  rcases List.append_eq_nil.mp hd with ⟨h1, _⟩
  exact String.ext h1

/-- The part_007 sent text is never the empty string. -/
theorem postSentTextV7_ne_empty (s : String) : postSentTextV7 s ≠ "" := by
  unfold postSentTextV7
  by_cases h : jsTrim s = "" <;> simp [h]

/-- The Code.ts formatted text is never the empty string. -/
theorem formattedTextCode_ne_empty (s : String) : formattedTextCode s ≠ "" := by
  unfold formattedTextCode
  by_cases h : jsTrim s = "" <;> simp [h]

/-- The Code.ts fallback sent text is never the empty string. -/
theorem postSentTextCode_ne_empty (s : String) : postSentTextCode s ≠ "" := by
  unfold postSentTextCode
  exact append_ne_empty_left _ _ (by decide)

/-- The full-content extraction never returns the empty string. -/
theorem fullContentOf_ne_empty (r : SlackApiResponse) (s : String)
    (h : fullContentOf r = some s) : s ≠ "" := by
  unfold fullContentOf at h
  rcases r with ⟨ok, err, file⟩
  rcases file with _ | ⟨f⟩ <;> simp_all
  rcases f with ⟨i, ft, mt, up, upd, tr⟩
  rcases tr with _ | ⟨t⟩ <;> simp_all
  rcases t with ⟨st, pv, fl⟩
  rcases fl with _ | ⟨flc⟩ <;> simp_all
  exact h.2 ▸ h.1

/-- The preview-content extraction never returns the empty string. -/
theorem previewContentOf_ne_empty (r : SlackApiResponse) (s : String)
    (h : previewContentOf r = some s) : s ≠ "" := by
  unfold previewContentOf at h
  rcases r with ⟨ok, err, file⟩
  rcases file with _ | ⟨f⟩ <;> simp_all
  rcases f with ⟨i, ft, mt, up, upd, tr⟩
  rcases tr with _ | ⟨t⟩ <;> simp_all
  rcases t with ⟨st, pv, fl⟩
  rcases pv with _ | ⟨pvc⟩ <;> simp_all
  exact h.2 ▸ h.1

/-- getFullTranscription never returns the empty string: both of its
success branches are guarded by a truthiness check. -/
theorem getFullTranscription_ne_empty (resp : Option (Nat × SlackApiResponse))
    (s : String) (h : getFullTranscription resp = some s) : s ≠ "" := by
  rcases resp with _ | ⟨code, r⟩
  · exact absurd h (by simp [getFullTranscription])
  · simp only [getFullTranscription] at h
    by_cases hc : code ≠ 200
    · simp [hc] at h
    · rcases hfc : fullContentOf r with _ | t
      · rw [hfc] at h
        by_cases hok : r.ok <;> simp [hc, hok] at h
        exact previewContentOf_ne_empty r s h
      · rw [hfc] at h
        by_cases hok : r.ok <;> simp [hc, hok] at h
        exact h ▸ fullContentOf_ne_empty r t hfc

/-- Looking up the key just put into the cache succeeds exactly until
its expiry instant. -/
theorem cacheGet_put_same (c : Cache) (now ttl t2 : Nat) (k : String) :
    cacheGet (cachePut c now ttl k) t2 k =
      if t2 < now + ttl then some "processed" else none := by
  simp [cacheGet, cachePut]

/-- Removing the entries for a key is idempotent. -/
theorem filter_key_idem (c : Cache) (k : String) :
    (c.filter (fun e => e.1 ≠ k)).filter (fun e => e.1 ≠ k) =
      c.filter (fun e => e.1 ≠ k) := by
  induction c with
  | nil => rfl
  | cons e t ih => by_cases he : e.1 = k <;> simp [he, ih]

/-! ## Claim theorems -/

/-- Claim C2: for every inbound payload whose top-level type is
url_verification, the dispatcher's response body is exactly the
payload's challenge string, whatever other fields are present; the
dedup cache is untouched and no pipeline call happens. -/
theorem url_verification_passthrough (data : SlackData) (cache : Cache)
    (now : Nat) (h : data.type = "url_verification") :
    doPost (some data) cache now = ⟨data.challenge, cache, []⟩ := by
  simp [doPost, h]

/-- Witness for C2: a handshake payload that also carries an event
object is answered with exactly its challenge, cache untouched. -/
theorem url_verification_passthrough_witness :
    doPost (some ⟨"url_verification", "abc123",
        some ⟨"message", some "file_share", none, none, none, "C1", none,
          "1.2", none, "U1", none⟩⟩) [] 0 = ⟨"abc123", [], []⟩ :=
  url_verification_passthrough _ [] 0 rfl

/-- Claim C3: marking a non-empty key (the cache write performed by a
non-duplicate isDuplicateEvent call) makes a later check within the
30-second ttl report a duplicate; a check at or after expiry reports a
fresh event again; and the cache put is an idempotent insert-or-refresh
(re-putting a key is the same as putting it the first time). -/
theorem dedup_ttl_roundtrip :
    (∀ c now k t2, k ≠ "" → (isDuplicateEvent c now k).1 = false →
      t2 < now + 30 →
      (isDuplicateEvent (isDuplicateEvent c now k).2 t2 k).1 = true)
    ∧ (∀ c now k t2, k ≠ "" → (isDuplicateEvent c now k).1 = false →
      now + 30 ≤ t2 →
      (isDuplicateEvent (isDuplicateEvent c now k).2 t2 k).1 = false)
    ∧ (∀ c t1 t2 ttl k,
      cachePut (cachePut c t1 ttl k) t2 ttl k = cachePut c t2 ttl k) := by
  refine ⟨?_, ?_, ?_⟩
  · intro c now k t2 hk h1 ht
    rcases hget : cacheGet c now ("processed_event_" ++ k) with _ | v
    · simp [isDuplicateEvent, hk, hget, cacheGet_put_same, ht]
    · simp [isDuplicateEvent, hk, hget] at h1
  · intro c now k t2 hk h1 ht
    rcases hget : cacheGet c now ("processed_event_" ++ k) with _ | v
    · simp [isDuplicateEvent, hk, hget, cacheGet_put_same, Nat.not_lt.mpr ht]
    · simp [isDuplicateEvent, hk, hget] at h1
  · intro c t1 t2 ttl k
    simp [cachePut, filter_key_idem]

/-- Witness for C3: marking a concrete key in the empty cache makes a
check ten seconds later report a duplicate. -/
theorem dedup_ttl_roundtrip_witness :
    (isDuplicateEvent (isDuplicateEvent [] 0 "F1_C1_U1_1.2").2 10
      "F1_C1_U1_1.2").1 = true :=
  dedup_ttl_roundtrip.1 [] 0 "F1_C1_U1_1.2" 10 (by decide) (by decide)
    (by decide)

/-- Claim C5 (code bug): the part_002 dispatcher parses the body before
its try/catch, so a malformed body propagates the parse exception
instead of returning a text response, while the Code.ts dispatcher
catches the same failure and still answers with a text body. -/
theorem doPost_error_containment_divergence :
    (doPostV2 none [] 0).isOk = false ∧
    doPost none [] 0 = ⟨"Event received", [], []⟩ :=
  ⟨rfl, rfl⟩

/-- Claim C9 counterexample: with both tokens present but the channel
name unset, getSlackConfig fails with the configuration error, contrary
to the claim that the channel filter is optional. -/
theorem getSlackConfig_channel_absent_fails :
    getSlackConfig ⟨some "xoxb-token", some "xoxp-token", none⟩ =
      .error "Slack設定が見つかりません。setupCredentials()関数を実行して設定を保存してください。" :=
  rfl

/-- Claim C9 (amended): getSlackConfig succeeds exactly when the bot
token, the user token and the channel name are all present and
non-empty, in which case it returns precisely those three values. -/
theorem getSlackConfig_requires_all_three :
    (∀ p, (getSlackConfig p).isOk =
      (optTruthy p.botToken && optTruthy p.userToken &&
        optTruthy p.channelName))
    ∧ (∀ b u c, b ≠ "" → u ≠ "" → c ≠ "" →
      getSlackConfig ⟨some b, some u, some c⟩ = .ok ⟨b, u, c⟩) := by
  constructor
  · intro p
    unfold getSlackConfig
    by_cases h1 : optTruthy p.botToken <;>
      by_cases h2 : optTruthy p.userToken <;>
        by_cases h3 : optTruthy p.channelName <;>
          simp [h1, h2, h3, Except.isOk, Except.toBool]
  · intro b u c hb hu hc
    unfold getSlackConfig
    simp [optTruthy, hb, hu, hc]

/-- Claim C1: the initial scheduling persists a PendingTranscription
with retryCount 0 and maxRetries 6 and creates exactly one delayed
recheck; whenever a recheck re-persists the record it increments
retryCount by one, keeps maxRetries, stays within the bound, and
creates exactly one further trigger; and for a file still in state
processing, each of the first six rechecks reschedules while the
seventh (retryCount 6) proceeds with the best-available state without
creating another trigger. -/
theorem pending_retry_bound :
    (∀ f c t, schedulePendingTranscription f c t = ⟨⟨f, c, t, 0, 6⟩, 1⟩)
    ∧ (∀ pd fi next,
      retryTranscriptionCheck (some pd) fi = .rescheduled next →
      next.retryCount = pd.retryCount + 1 ∧
      next.maxRetries = pd.maxRetries ∧
      next.retryCount ≤ next.maxRetries ∧
      RetryOutcome.newTriggers (.rescheduled next) = 1)
    ∧ (∀ f c t resp file tr, resp.file = some file →
      file.transcription = some tr → tr.status = "processing" →
      (∀ k, k < 6 →
        retryTranscriptionCheck (some ⟨f, c, t, k, 6⟩) (some resp) =
          .rescheduled ⟨f, c, t, k + 1, 6⟩)
      ∧ retryTranscriptionCheck (some ⟨f, c, t, 6, 6⟩) (some resp) =
          .exhausted file
      ∧ RetryOutcome.newTriggers (.exhausted file) = 0) := by
  refine ⟨fun f c t => rfl, ?_, ?_⟩
  · intro pd fi next h
    rcases fi with _ | resp
    · simp [retryTranscriptionCheck] at h
    · rcases hf : resp.file with _ | file
      · simp [retryTranscriptionCheck, hf] at h
      · by_cases hc : transcriptionComplete file
        · simp [retryTranscriptionCheck, hf, hc] at h
        · by_cases hr : pd.retryCount ≥ pd.maxRetries
          · simp [retryTranscriptionCheck, hf, hc, hr] at h
          · simp only [retryTranscriptionCheck, hf, hc, hr] at h
            simp only [Bool.false_eq_true, if_false, if_neg hr,
              RetryOutcome.rescheduled.injEq] at h
            subst h
            refine ⟨rfl, rfl, ?_, rfl⟩
            simp only []
            omega
  · intro f c t resp file tr hrf htr hst
    have hcomp : transcriptionComplete file = false := by
      simp [transcriptionComplete, htr, hst]
    refine ⟨?_, ?_, rfl⟩
    · intro k hk
      simp [retryTranscriptionCheck, hrf, hcomp, Nat.not_le.mpr hk]
    · simp [retryTranscriptionCheck, hrf, hcomp]

/-- Witness for C1: with a concrete still-processing file, the recheck
of the freshly scheduled record reschedules with retryCount 1. -/
theorem pending_retry_bound_witness :
    retryTranscriptionCheck (some ⟨"F1", "C1", "1.2", 0, 6⟩)
        (some ⟨true, none, some ⟨"F1", none, some "audio/mp4", none, none,
          some ⟨"processing", none, none⟩⟩⟩) =
      .rescheduled ⟨"F1", "C1", "1.2", 1, 6⟩ :=
  (pending_retry_bound.2.2 "F1" "C1" "1.2"
    ⟨true, none, some ⟨"F1", none, some "audio/mp4", none, none,
      some ⟨"processing", none, none⟩⟩⟩
    ⟨"F1", none, some "audio/mp4", none, none,
      some ⟨"processing", none, none⟩⟩
    ⟨"processing", none, none⟩ rfl rfl rfl).1 0 (by decide)

/-- Claim C4 counterexample: dispatching a channel_join event (no file
share) does not invoke the pipeline, but it does write a dedup-cache
record, so the cache is no longer empty afterwards. -/
theorem dedup_record_written_for_channel_join :
    (doPost (some channelJoinData) [] 0).pipelineCalls = [] ∧
    (doPost (some channelJoinData) [] 0).cache =
      [("processed_event__C123_U1_111.222", 30)] ∧
    (doPost (some channelJoinData) [] 0).cache ≠ [] :=
  ⟨rfl, rfl, by decide⟩

/-- Claim C4 (amended): the dispatcher never invokes the voice-memo
pipeline for a non-actionable event (every pipeline call is a
message/file_share event with at least one file whose filetype passes
the audio filter), but a dedup-cache record is written for every
non-handshake event whose computed key is non-empty, before
classification; the record is written exactly once per unique key
within the ttl window, a repeat delivery being answered as a duplicate
with the cache unchanged. -/
theorem dedup_write_before_classification :
    (∀ parsed cache now e,
      e ∈ (doPost parsed cache now).pipelineCalls →
      e.type = "message" ∧ e.subtype = some "file_share" ∧
      ∃ f rest, e.files = some (f :: rest) ∧
        audioFiletypeTest f.filetype = true)
    ∧ (∀ data now now2 e, data.type ≠ "url_verification" →
      data.event = some e → createEventKey e ≠ "" →
      (doPost (some data) [] now).cache =
        cachePut [] now 30 ("processed_event_" ++ createEventKey e) ∧
      (now2 < now + 30 →
        doPost (some data) (doPost (some data) [] now).cache now2 =
          ⟨"Duplicate event", (doPost (some data) [] now).cache, []⟩)) := by
  constructor
  · intro parsed cache now e he
    rcases parsed with _ | data
    · simp [doPost] at he
    · by_cases hv : data.type = "url_verification"
      · simp [doPost, hv] at he
      · rcases hev : data.event with _ | ev
        · simp [doPost, hv, hev] at he
        · by_cases hdup : (isDuplicateEvent cache now (createEventKey ev)).1
          · simp [doPost, hv, hev, hdup] at he
          · by_cases hfs : ev.type = "file_shared"
            · simp [doPost, hv, hev, hdup, hfs] at he
            · by_cases hmsg : ev.type = "message" ∧
                  ev.subtype = some "file_share"
              · rcases hfl : ev.files with _ | ⟨_ | ⟨f, rest⟩⟩
                · simp [doPost, hv, hev, hdup, hfs, hmsg, hfl] at he
                · simp [doPost, hv, hev, hdup, hfs, hmsg, hfl] at he
                · by_cases haud : audioFiletypeTest f.filetype
                  · simp [doPost, hv, hev, hdup, hfs, hmsg, hfl, haud] at he
                    subst he
                    exact ⟨hmsg.1, hmsg.2, f, rest, hfl, haud⟩
                  · simp [doPost, hv, hev, hdup, hfs, hmsg, hfl, haud] at he
              · simp [doPost, hv, hev, hdup, hfs, hmsg] at he
  · intro data now now2 e hv hev hk
    have hdup : isDuplicateEvent [] now (createEventKey e) =
        (false, cachePut [] now 30 ("processed_event_" ++ createEventKey e)) := by
      simp [isDuplicateEvent, hk, cacheGet]
    have hc1 : (doPost (some data) [] now).cache =
        cachePut [] now 30 ("processed_event_" ++ createEventKey e) := by
      by_cases hfs : e.type = "file_shared"
      · simp [doPost, hv, hev, hdup, hfs]
      · by_cases hmsg : e.type = "message" ∧ e.subtype = some "file_share"
        · rcases hfl : e.files with _ | ⟨_ | ⟨f, rest⟩⟩
          · simp [doPost, hv, hev, hdup, hfs, hmsg, hfl]
          · simp [doPost, hv, hev, hdup, hfs, hmsg, hfl]
          · by_cases haud : audioFiletypeTest f.filetype <;>
              simp [doPost, hv, hev, hdup, hfs, hmsg, hfl, haud]
        · simp [doPost, hv, hev, hdup, hfs, hmsg]
    refine ⟨hc1, fun hlt => ?_⟩
    have hget : cacheGet
        (cachePut [] now 30 ("processed_event_" ++ createEventKey e)) now2
        ("processed_event_" ++ createEventKey e) = some "processed" := by
      rw [cacheGet_put_same]
      simp [hlt]
    generalize hgen : (doPost (some data) [] now).cache = c1 at hc1 ⊢
    have hdup2 : isDuplicateEvent c1 now2 (createEventKey e) = (true, c1) := by
      rw [hc1]
      simp [isDuplicateEvent, hk, hget]
    simp [doPost, hv, hev, hdup2]

/-- Witness for C4 (amended): the channel_join payload writes exactly
one record keyed by its composite key, and a second delivery ten
seconds later is answered as a duplicate with the cache unchanged. -/
theorem dedup_write_before_classification_witness :
    (doPost (some channelJoinData) [] 0).cache =
      cachePut [] 0 30 ("processed_event_" ++ createEventKey channelJoinEvent) ∧
    doPost (some channelJoinData)
        (doPost (some channelJoinData) [] 0).cache 10 =
      ⟨"Duplicate event", (doPost (some channelJoinData) [] 0).cache, []⟩ := by
  have h := dedup_write_before_classification.2 channelJoinData 0 10
    channelJoinEvent (by decide) rfl (by decide)
  exact ⟨h.1, h.2 (by decide)⟩

/-- Claim C6: for a file whose transcription is complete, the pipeline
posts the selected transcript before the delete of the original is
attempted (the trace is exactly a post followed by a delete, for either
delete outcome, with the same posted text), the text actually sent is
never empty, and in the Code.ts variant every non-empty trace likewise
starts with a post whose sent text is non-empty, the first effect being
unaffected by the delete outcome; all failure paths return a trace
instead of raising. -/
theorem post_precedes_delete :
    (∀ file c ts ff delOk tr, file.transcription = some tr →
      tr.status = "complete" →
      processTranscription file c ts ff delOk =
        [.post c (selectedTranscript tr ff), .deleteFile file.id delOk] ∧
      postSentTextV7 (selectedTranscript tr ff) ≠ "")
    ∧ (∀ event fir dOk transcript delOk,
      processVoiceMemoCode event fir dOk transcript delOk = [] ∨
      ∃ txt, processVoiceMemoCode event fir dOk transcript delOk =
        [.post event.channel txt,
         .deleteMessage event.channel event.ts delOk] ∧
        postSentTextCode txt ≠ "")
    ∧ (∀ event fir dOk transcript,
      (processVoiceMemoCode event fir dOk transcript true).head? =
        (processVoiceMemoCode event fir dOk transcript false).head?) := by
  refine ⟨?_, ?_, ?_⟩
  · intro file c ts ff delOk tr htr hst
    exact ⟨by simp [processTranscription, htr, hst],
      postSentTextV7_ne_empty _⟩
  · intro event fir dOk transcript delOk
    by_cases h1 : pipelineFileId event = ""
    · left
      simp [processVoiceMemoCode, h1]
    · rcases fir with _ | resp
      · left
        simp [processVoiceMemoCode, h1]
      · rcases hf : resp.file with _ | file
        · left
          simp [processVoiceMemoCode, h1, hf]
        · by_cases hm : mimetypeAudioTest file.mimetype
          · by_cases hdu : optTruthy
                (jsOrRaw (file.url_private_download.getD "") file.url_private)
            · by_cases hdl : dOk
              · right
                exact ⟨transcript,
                  by simp [processVoiceMemoCode, h1, hf, hm, hdu, hdl],
                  postSentTextCode_ne_empty _⟩
              · by_cases hcp : transcriptionComplete file
                · right
                  exact ⟨previewTranscript file,
                    by simp [processVoiceMemoCode, h1, hf, hm, hdu, hdl, hcp,
                      handleTranscriptionWithoutAudio],
                    postSentTextCode_ne_empty _⟩
                · left
                  simp [processVoiceMemoCode, h1, hf, hm, hdu, hdl, hcp]
            · left
              simp [processVoiceMemoCode, h1, hf, hm, hdu]
          · left
            simp [processVoiceMemoCode, h1, hf, hm]
  · intro event fir dOk transcript
    by_cases h1 : pipelineFileId event = ""
    · simp [processVoiceMemoCode, h1]
    · rcases fir with _ | resp
      · simp [processVoiceMemoCode, h1]
      · rcases hf : resp.file with _ | file
        · simp [processVoiceMemoCode, h1, hf]
        · by_cases hm : mimetypeAudioTest file.mimetype
          · by_cases hdu : optTruthy
                (jsOrRaw (file.url_private_download.getD "") file.url_private)
            · by_cases hdl : dOk
              · simp [processVoiceMemoCode, h1, hf, hm, hdu, hdl]
              · by_cases hcp : transcriptionComplete file <;>
                  simp [processVoiceMemoCode, h1, hf, hm, hdu, hdl, hcp,
                    handleTranscriptionWithoutAudio]
            · simp [processVoiceMemoCode, h1, hf, hm, hdu]
          · simp [processVoiceMemoCode, h1, hf, hm]

/-- Witness for C6: a concrete complete file yields exactly a post of
the selected transcript followed by a failed delete, and its sent text
is non-empty. -/
theorem post_precedes_delete_witness :
    processTranscription
        ⟨"F1", none, some "audio/mp4", none, none,
          some ⟨"complete", some ⟨"hi", false⟩, none⟩⟩ "C1" "1.2" none false =
      [.post "C1"
        (selectedTranscript ⟨"complete", some ⟨"hi", false⟩, none⟩ none),
       .deleteFile "F1" false] ∧
    postSentTextV7
      (selectedTranscript ⟨"complete", some ⟨"hi", false⟩, none⟩ none) ≠ "" :=
  post_precedes_delete.1
    ⟨"F1", none, some "audio/mp4", none, none,
      some ⟨"complete", some ⟨"hi", false⟩, none⟩⟩ "C1" "1.2" none false
    ⟨"complete", some ⟨"hi", false⟩, none⟩ rfl rfl

/-- Claim C7: for a complete transcription with a truncated preview
(has_more true, truthy content), a failed full-text fetch makes the
pipeline post exactly the preview text with the appended continuation
marker, which is never the empty string; a successful full-text fetch
makes it post the fetched full text instead. -/
theorem truncated_preview_fallback :
    (∀ file c ts delOk resp tr pv, file.transcription = some tr →
      tr.status = "complete" → tr.preview = some pv → pv.content ≠ "" →
      pv.has_more = true → getFullTranscription resp = none →
      processTranscription file c ts (getFullTranscription resp) delOk =
        [.post c (pv.content ++ " (続きがあります)"),
         .deleteFile file.id delOk] ∧
      pv.content ++ " (続きがあります)" ≠ "")
    ∧ (∀ file c ts delOk resp full tr pv, file.transcription = some tr →
      tr.status = "complete" → tr.preview = some pv → pv.content ≠ "" →
      pv.has_more = true → getFullTranscription resp = some full →
      processTranscription file c ts (getFullTranscription resp) delOk =
        [.post c full, .deleteFile file.id delOk]) := by
  constructor
  · intro file c ts delOk resp tr pv htr hst hpv hct hhm hfetch
    refine ⟨?_, append_ne_empty_left _ _ hct⟩
    rw [hfetch]
    simp [processTranscription, htr, hst, selectedTranscript, hpv, hct, hhm]
  · intro file c ts delOk resp full tr pv htr hst hpv hct hhm hfetch
    have hfne : full ≠ "" := getFullTranscription_ne_empty resp full hfetch
    rw [hfetch]
    simp [processTranscription, htr, hst, selectedTranscript, hpv, hct, hhm,
      hfne]

/-- Witness for C7: a concrete truncated preview with a thrown full
fetch posts the preview plus the continuation marker. -/
theorem truncated_preview_fallback_witness :
    processTranscription
        ⟨"F1", none, some "audio/mp4", none, none,
          some ⟨"complete", some ⟨"hello", true⟩, none⟩⟩ "C1" "1.2"
        (getFullTranscription none) true =
      [.post "C1" ("hello" ++ " (続きがあります)"), .deleteFile "F1" true] ∧
    "hello" ++ " (続きがあります)" ≠ "" :=
  truncated_preview_fallback.1
    ⟨"F1", none, some "audio/mp4", none, none,
      some ⟨"complete", some ⟨"hello", true⟩, none⟩⟩ "C1" "1.2" true none
    ⟨"complete", some ⟨"hello", true⟩, none⟩ ⟨"hello", true⟩
    rfl rfl rfl (by decide) rfl rfl

/-- Claim C8: an empty or whitespace-only transcript is never sent as
the message text: both posting variants replace it by their fixed
sentinel, so the sent text is non-empty and differs from the input. -/
theorem empty_transcript_normalized (s : String) (h : jsTrim s = "") :
    postSentTextV7 s = ":speech_balloon::arrow_right: :memo: … :x:" ∧
    formattedTextCode s = "文字起こしできる内容がありませんでした。" ∧
    postSentTextV7 s ≠ "" ∧ postSentTextCode s ≠ "" ∧
    postSentTextV7 s ≠ s := by
  refine ⟨by simp [postSentTextV7, h], by simp [formattedTextCode, h],
    postSentTextV7_ne_empty s, postSentTextCode_ne_empty s, ?_⟩
  rw [show postSentTextV7 s = ":speech_balloon::arrow_right: :memo: … :x:"
    from by simp [postSentTextV7, h]]
  intro he
  have h2 := congrArg jsTrim he
  rw [h] at h2
  exact absurd h2 (by decide)

/-- Witness for C8: a single-space transcript is replaced by the
sentinels. -/
theorem empty_transcript_normalized_witness :
    postSentTextV7 " " = ":speech_balloon::arrow_right: :memo: … :x:" ∧
    formattedTextCode " " = "文字起こしできる内容がありませんでした。" ∧
    postSentTextV7 " " ≠ "" ∧ postSentTextCode " " ≠ "" ∧
    postSentTextV7 " " ≠ " " :=
  empty_transcript_normalized " " (by decide)

/-- Witness for C9 (amended): a fully populated property store yields
exactly its three values. -/
theorem getSlackConfig_requires_all_three_witness :
    getSlackConfig ⟨some "xoxb-1", some "xoxp-1", some "general"⟩ =
      .ok ⟨"xoxb-1", "xoxp-1", "general"⟩ :=
  getSlackConfig_requires_all_three.2 "xoxb-1" "xoxp-1" "general"
    (by decide) (by decide) (by decide)

/-- Claim C10: only the first attached file is ever examined.  For two
actionable payloads that differ only in the files after the first, the
dedup key, the dispatcher response, the resulting cache, and the file
id handed to the pipeline coincide, and both pipeline variants behave
identically on the two events given the same external responses, so
files beyond the first are never transcribed, posted or deleted. -/
theorem first_file_only (e1 e2 : SlackEvent) (h : sameHeadVariant e1 e2) :
    createEventKey e1 = createEventKey e2 ∧
    pipelineFileId e1 = pipelineFileId e2 ∧
    (∀ ty ch cache now,
      (doPost (some ⟨ty, ch, some e1⟩) cache now).response =
        (doPost (some ⟨ty, ch, some e2⟩) cache now).response ∧
      (doPost (some ⟨ty, ch, some e1⟩) cache now).cache =
        (doPost (some ⟨ty, ch, some e2⟩) cache now).cache ∧
      (doPost (some ⟨ty, ch, some e1⟩) cache now).pipelineCalls.map
          pipelineFileId =
        (doPost (some ⟨ty, ch, some e2⟩) cache now).pipelineCalls.map
          pipelineFileId)
    ∧ (∀ fir, processVoiceMemoHandler e1 fir = processVoiceMemoHandler e2 fir)
    ∧ (∀ fir dOk tx delOk,
      processVoiceMemoCode e1 fir dOk tx delOk =
        processVoiceMemoCode e2 fir dOk tx delOk) := by
  obtain ⟨hty, hsub, hfile, hfid, hch, hchid, hts, hets, hu, huid,
    f, t1, t2, hf1, hf2⟩ := h
  have hkey : createEventKey e1 = createEventKey e2 := by
    simp only [createEventKey, hty, hsub, hfile, hfid, hch, hchid, hts,
      hets, hu, huid, hf1, hf2]
  have hpf : pipelineFileId e1 = pipelineFileId e2 := by
    simp [pipelineFileId, hf1, hf2]
  refine ⟨hkey, hpf, ?_, ?_, ?_⟩
  · intro ty ch cache now
    by_cases hv : ty = "url_verification"
    · simp [doPost, hv]
    · by_cases hdup : (isDuplicateEvent cache now (createEventKey e2)).1
      · simp [doPost, hv, hkey, hdup]
      · by_cases hfs : e2.type = "file_shared"
        · simp [doPost, hv, hkey, hdup, hty, hfs]
        · by_cases hmsg : e2.type = "message" ∧ e2.subtype = some "file_share"
          · have hmsg1 : e1.type = "message" ∧ e1.subtype = some "file_share" := by
              rw [hty, hsub]
              exact hmsg
            by_cases haud : audioFiletypeTest f.filetype
            · simp [doPost, hv, hkey, hdup, hty, hsub, hfs, hmsg, hmsg1,
                hf1, hf2, haud, hpf]
            · simp [doPost, hv, hkey, hdup, hty, hsub, hfs, hmsg, hmsg1,
                hf1, hf2, haud]
          · simp [doPost, hv, hkey, hdup, hty, hsub, hfs, hmsg]
  · intro fir
    simp only [processVoiceMemoHandler, hpf, hch, hts]
  · intro fir dOk tx delOk
    simp only [processVoiceMemoCode, hpf, hch, hts]

/-- Witness for C10: the two-file and one-file variants of the same
payload produce the same key, first file id, dispatcher outcome and
pipeline behavior. -/
theorem first_file_only_witness :
    createEventKey eventTwoFiles = createEventKey eventOneFile ∧
    pipelineFileId eventTwoFiles = pipelineFileId eventOneFile ∧
    (doPost (some ⟨"event_callback", "", some eventTwoFiles⟩) [] 0).response =
      (doPost (some ⟨"event_callback", "", some eventOneFile⟩) [] 0).response ∧
    (∀ fir, processVoiceMemoHandler eventTwoFiles fir =
      processVoiceMemoHandler eventOneFile fir) := by
  have h := first_file_only eventTwoFiles eventOneFile
    ⟨rfl, rfl, rfl, rfl, rfl, rfl, rfl, rfl, rfl, rfl,
      fileA, [fileB], [], rfl, rfl⟩
  exact ⟨h.1, h.2.1, (h.2.2.1 "event_callback" "" [] 0).1, h.2.2.2.1⟩

end SlackVoice
